import Mathlib

/-!
Verification of the per-cluster reconciliation controller
(`pkg/server/cluster controller`, the second unit of the Go sources):
a shallow embedding of the state constants, the `transition` state machine,
the side-effecting stage functions (`plan`, `provision`, `destroy`,
`install`), `buildPlan`, and the reconciliation loop body `run`,
together with theorems about the lifecycle state machine.

External collaborators (the record store, the `install` package's `Plan`
type and template renderer, the provisioner and the executor) are not part
of the sources; they are modelled from the specification at the interface
boundary, with explicit failure injection through environment records so
that every code path of the controller is represented.
-/

/-! ## State constants (the Go `const` block) -/

def planning : String := "planning"

def planningFailed : String := "planningFailed"

def planned : String := "planned"

def provisioning : String := "provisioning"

def provisionFailed : String := "provisionFailed"

def provisioned : String := "provisioned"

def installing : String := "installing"

def installFailed : String := "installFailed"

def installed : String := "installed"

def modifying : String := "modifying"

def modifyFailed : String := "modifyFailed"

def destroying : String := "destroying"

def destroyFailed : String := "destroyFailed"

def destroyed : String := "destroyed"

/-! ## Data model -/

/-- Modelled from the spec: the `store` package is outside the sources.
Provider choice and options of a cluster spec (§6 persisted shape). -/
structure ProvisionerSpec where
  provider : String
  options : String
  deriving DecidableEq, Repr

/-- Modelled from the spec: `store.ClusterSpec` (§6 persisted shape) —
desired lifecycle state, provider, and per-role node counts. -/
structure ClusterSpec where
  desiredState : String
  provisioner : ProvisionerSpec
  etcdCount : Nat
  masterCount : Nat
  workerCount : Nat
  ingressCount : Nat
  deriving DecidableEq, Repr

/-- Modelled from the spec: `store.ClusterStatus` (§6 persisted shape) —
current lifecycle state, the manual-retry stall flag, and the cached
cluster endpoint. -/
structure ClusterStatus where
  currentState : String
  waitingForManualRetry : Bool
  clusterIP : String
  deriving DecidableEq, Repr

/-- Modelled from the spec: `store.Cluster`, the durable `{Spec, Status}`
record. -/
structure Cluster where
  spec : ClusterSpec
  status : ClusterStatus
  deriving DecidableEq, Repr

/-- Modelled from the spec: the cluster section of `install.Plan`
(name and retained admin credential). -/
structure PlanCluster where
  name : String
  adminPassword : String
  deriving DecidableEq, Repr

/-- Modelled from the spec: `install.AWSProvisionerOptions`; its zero value
has every field at its zero value (the source's TODO mentions an AWS
region as an example option). -/
structure AWSProvisionerOptions where
  region : String
  deriving DecidableEq, Repr

/-- Modelled from the spec: `install.Provisioner` — the provider identifier
and optional AWS-specific options. -/
structure ProvisionerPlan where
  provider : String
  awsOptions : Option AWSProvisionerOptions
  deriving DecidableEq, Repr

/-- Modelled from the spec: the CNI add-on section of `install.Plan`. -/
structure CNI where
  provider : String
  deriving DecidableEq, Repr

/-- Modelled from the spec: the add-ons section of `install.Plan`. -/
structure AddOns where
  cni : CNI
  deriving DecidableEq, Repr

/-- Modelled from the spec: the master node group of `install.Plan`,
carrying the load-balanced endpoint recorded by provisioning. -/
structure MasterNodeGroup where
  loadBalancedFQDN : String
  deriving DecidableEq, Repr

/-- Modelled from the spec: `install.Plan`. The `networkConfigured` field
models the plan's `NetworkConfigured()` predicate (whether the plan
configures a networking add-on), whose implementation is outside the
sources. -/
structure Plan where
  cluster : PlanCluster
  provisioner : ProvisionerPlan
  addOns : AddOns
  master : MasterNodeGroup
  etcdNodes : Nat
  masterNodes : Nat
  workerNodes : Nat
  ingressNodes : Nat
  networkConfigured : Bool
  deriving DecidableEq, Repr

/-- `install.PlanTemplateOptions`, as populated by `buildPlan`. -/
structure PlanTemplateOptions where
  adminPassword : String
  etcdNodes : Nat
  masterNodes : Nat
  workerNodes : Nat
  ingressNodes : Nat
  deriving DecidableEq, Repr

/-- Modelled from the spec: failure injection and rendered output for the
plan template renderer (`install.WritePlanTemplate` and
`install.BytesPlanner.Read`), which live outside the sources. `basePlan`
is the plan the renderer would produce apart from the template-driven
fields. -/
structure RenderEnv where
  writeTemplateError : Option String
  readPlanError : Option String
  basePlan : Plan
  deriving DecidableEq, Repr

/-- Modelled from the spec: `install.WritePlanTemplate` — renders the plan
template, failing only on a rendering error. -/
def writePlanTemplate (renv : RenderEnv) (t : PlanTemplateOptions) :
    Except String PlanTemplateOptions :=
  match renv.writeTemplateError with
  | some e => Except.error e
  | none => Except.ok t

/-- Modelled from the spec: `install.BytesPlanner.Read` — parses the
rendered plan, failing only on a parsing error; on success it produces a
plan populated with the per-role node counts and the admin credential from
the template. -/
def plannerRead (renv : RenderEnv) (t : PlanTemplateOptions) :
    Except String Plan :=
  match renv.readPlanError with
  | some e => Except.error e
  | none =>
    Except.ok { renv.basePlan with
      cluster := { renv.basePlan.cluster with adminPassword := t.adminPassword }
      etcdNodes := t.etcdNodes
      masterNodes := t.masterNodes
      workerNodes := t.workerNodes
      ingressNodes := t.ingressNodes }

/-- `buildPlan` from the source: builds the template options from the
cluster spec and the retained admin credential, renders and parses the
template, sets the cluster name and the provisioner, and applies the
cloud-specific defaulting switch (`aws` and `azure`). -/
def buildPlan (renv : RenderEnv) (name : String) (clusterSpec : ClusterSpec)
    (existingPassword : String) : Except String Plan :=
  let planTemplate : PlanTemplateOptions :=
    { adminPassword := existingPassword
      etcdNodes := clusterSpec.etcdCount
      masterNodes := clusterSpec.masterCount
      workerNodes := clusterSpec.workerCount
      ingressNodes := clusterSpec.ingressCount }
  match writePlanTemplate renv planTemplate with
  | Except.error e => Except.error ("could not decode request body: " ++ e)
  | Except.ok written =>
    match plannerRead renv written with
    | Except.error e => Except.error ("could not read plan: " ++ e)
    | Except.ok p0 =>
      let p1 := { p0 with
        cluster := { p0.cluster with name := name }
        provisioner :=
          { provider := clusterSpec.provisioner.provider, awsOptions := none } }
      let p2 :=
        if clusterSpec.provisioner.provider = "aws" then
          { p1 with provisioner :=
              { p1.provisioner with awsOptions := some { region := "" } } }
        else if clusterSpec.provisioner.provider = "azure" then
          { p1 with addOns := { cni := { provider := "weave" } } }
        else p1
      Except.ok p2

/-! ## Side-effecting calls dispatched by the controller -/

/-- One call to an external collaborator, recorded with the argument values
the controller passes. -/
inductive Call where
  | buildPlan (name : String)
  | provision (plan : Plan)
  | destroy (name : String)
  | runPreFlightCheck (plan : Plan)
  | generateCertificates (plan : Plan) (overwrite : Bool)
  | generateKubeconfig (plan : Plan)
  | install (plan : Plan) (dryRun : Bool)
  | runSmokeTest (plan : Plan)
  deriving DecidableEq, Repr

/-- Modelled from the spec: outcomes of the external provisioner and
executor calls, injected into the stage functions. A `some` error value
means the corresponding call fails; `provisionResult` is the updated plan
returned on provisioning success (`none` means provisioning fails). -/
structure TransitionEnv where
  renderEnv : RenderEnv
  provisionResult : Option Plan
  destroyError : Option String
  preFlightError : Option String
  generateCertificatesError : Option String
  generateKubeconfigError : Option String
  installError : Option String
  smokeTestError : Option String
  deriving DecidableEq, Repr

/-- The mutable fields of `clusterController` threaded through the stage
functions: the cluster name, the cached spec, and the in-memory install
plan. -/
structure ControllerState where
  clusterName : String
  clusterSpec : ClusterSpec
  installPlan : Plan
  deriving DecidableEq, Repr

/-- `cluster.Status.CurrentState = s; return cluster`. -/
def setCurrentState (cluster : Cluster) (s : String) : Cluster :=
  { cluster with status := { cluster.status with currentState := s } }

/-- `cluster.Status.CurrentState = s; cluster.Status.WaitingForManualRetry
= true; return cluster`. -/
def setFailed (cluster : Cluster) (s : String) : Cluster :=
  { cluster with status :=
      { cluster.status with currentState := s, waitingForManualRetry := true } }

/-- `clusterController.plan`: build the install plan from the spec; on
error go to `planningFailed` and stall, on success cache the plan and go
to `planned`. -/
def plan (env : TransitionEnv) (c : ControllerState) (cluster : Cluster) :
    ControllerState × Cluster × List Call :=
  match buildPlan env.renderEnv c.clusterName cluster.spec
      c.installPlan.cluster.adminPassword with
  | Except.error _ =>
    (c, setFailed cluster planningFailed, [Call.buildPlan c.clusterName])
  | Except.ok p =>
    ({ c with installPlan := p }, setCurrentState cluster planned,
     [Call.buildPlan c.clusterName])

/-- `clusterController.provision`: provision infrastructure; on error go to
`provisionFailed` and stall, on success cache the updated plan, record the
cluster endpoint, and go to `provisioned`. -/
def provision (env : TransitionEnv) (c : ControllerState) (cluster : Cluster) :
    ControllerState × Cluster × List Call :=
  match env.provisionResult with
  | none =>
    (c, setFailed cluster provisionFailed, [Call.provision c.installPlan])
  | some updatedPlan =>
    ({ c with installPlan := updatedPlan },
     { cluster with status := { cluster.status with
         currentState := provisioned
         clusterIP := updatedPlan.master.loadBalancedFQDN } },
     [Call.provision c.installPlan])

/-- `clusterController.destroy`: destroy infrastructure; on error go to
`destroyFailed` and stall, on success go to `destroyed`. -/
def destroy (env : TransitionEnv) (c : ControllerState) (cluster : Cluster) :
    ControllerState × Cluster × List Call :=
  match env.destroyError with
  | some _ =>
    (c, setFailed cluster destroyFailed, [Call.destroy c.clusterName])
  | none =>
    (c, setCurrentState cluster destroyed, [Call.destroy c.clusterName])

/-- `clusterController.install`: the ordered install pipeline — preflight
check, certificate generation (overwrite `false`), kubeconfig generation,
install (dry-run flag `true`), and, only when the plan configures a
networking add-on, the smoke test. Every step but the smoke test fails the
pipeline into `installFailed` with the stall flag; a smoke-test failure
sets `installFailed` without touching the flag. -/
def install (env : TransitionEnv) (c : ControllerState) (cluster : Cluster) :
    ControllerState × Cluster × List Call :=
  let p := c.installPlan
  if env.preFlightError.isSome then
    (c, setFailed cluster installFailed, [Call.runPreFlightCheck p])
  else if env.generateCertificatesError.isSome then
    (c, setFailed cluster installFailed,
     [Call.runPreFlightCheck p, Call.generateCertificates p false])
  else if env.generateKubeconfigError.isSome then
    (c, setFailed cluster installFailed,
     [Call.runPreFlightCheck p, Call.generateCertificates p false,
      Call.generateKubeconfig p])
  else if env.installError.isSome then
    (c, setFailed cluster installFailed,
     [Call.runPreFlightCheck p, Call.generateCertificates p false,
      Call.generateKubeconfig p, Call.install p true])
  else if !p.networkConfigured then
    (c, setCurrentState cluster installed,
     [Call.runPreFlightCheck p, Call.generateCertificates p false,
      Call.generateKubeconfig p, Call.install p true])
  else if env.smokeTestError.isSome then
    (c, setCurrentState cluster installFailed,
     [Call.runPreFlightCheck p, Call.generateCertificates p false,
      Call.generateKubeconfig p, Call.install p true,
      Call.runSmokeTest p])
  else
    (c, setCurrentState cluster installed,
     [Call.runPreFlightCheck p, Call.generateCertificates p false,
      Call.generateKubeconfig p, Call.install p true,
      Call.runSmokeTest p])

/-- `clusterController.transition`: the state-machine switch. Returns the
updated controller fields, the updated cluster record, and the external
calls dispatched. -/
def transition (env : TransitionEnv) (c : ControllerState) (cluster : Cluster) :
    ControllerState × Cluster × List Call :=
  if cluster.spec.desiredState = cluster.status.currentState then
    (c, cluster, [])
  else if cluster.status.currentState = "" then
    (c, setCurrentState cluster planning, [])
  else if cluster.status.currentState = planning then
    plan env c cluster
  else if cluster.status.currentState = planned then
    (c, setCurrentState cluster provisioning, [])
  else if cluster.status.currentState = planningFailed then
    if cluster.spec.desiredState = destroyed then
      (c, setCurrentState cluster destroying, [])
    else
      (c, setCurrentState cluster planning, [])
  else if cluster.status.currentState = provisioning then
    provision env c cluster
  else if cluster.status.currentState = provisioned then
    if cluster.spec.desiredState = destroyed then
      (c, setCurrentState cluster destroying, [])
    else
      (c, setCurrentState cluster installing, [])
  else if cluster.status.currentState = provisionFailed then
    if cluster.spec.desiredState = destroyed then
      (c, setCurrentState cluster destroying, [])
    else
      (c, setCurrentState cluster provisioning, [])
  else if cluster.status.currentState = destroying then
    destroy env c cluster
  else if cluster.status.currentState = installing then
    install env c cluster
  else if cluster.status.currentState = installFailed then
    if cluster.spec.desiredState = destroyed then
      (c, setCurrentState cluster destroying, [])
    else
      (c, setCurrentState cluster installing, [])
  else if cluster.status.currentState = installed then
    if cluster.spec.desiredState = destroyed then
      (c, setCurrentState cluster destroying, [])
    else
      (c, { cluster with status :=
              { cluster.status with waitingForManualRetry := true } }, [])
  else
    (c, { cluster with status :=
            { cluster.status with waitingForManualRetry := true } }, [])

/-! ## The reconciliation loop (`clusterController.run`) -/

/-- What one iteration of the loop body did: whether `transition` was
invoked, which external calls it dispatched, whether the terminal store
deletion was attempted, whether the cycle took the idle/stalled branch,
and whether the controller stopped (record deleted). -/
structure CycleOutcome where
  invokedTransition : Bool
  calls : List Call
  attemptedDelete : Bool
  idled : Bool
  stopped : Bool
  deriving DecidableEq, Repr

/-- The outcome of a cycle that did nothing observable. -/
def noOutcome : CycleOutcome :=
  { invokedTransition := false, calls := [], attemptedDelete := false,
    idled := false, stopped := false }

/-- Modelled from the spec: the record store's content for this cluster
name (`none` = record absent / deleted). -/
structure StoreState where
  record : Option Cluster
  deriving DecidableEq, Repr

/-- Modelled from the spec: failure injection for one loop iteration — the
two store loads, the store write, the terminal delete, and a concurrent
spec edit that lands in the store while the (long-running) transition is
in flight. -/
structure CycleEnv where
  transitionEnv : TransitionEnv
  firstGetFails : Bool
  secondGetFails : Bool
  putFails : Bool
  deleteFails : Bool
  midCycleSpecEdit : Option ClusterSpec
  deriving DecidableEq, Repr

/-- The spec-edit check at the top of the loop body: if the freshly loaded
spec differs from the controller's cached spec and the desired state is
not `destroyed`, force `CurrentState` back to `planning`. -/
def respecCluster (cachedSpec : ClusterSpec) (cluster : Cluster) : Cluster :=
  if cluster.spec ≠ cachedSpec ∧ cluster.spec.desiredState ≠ destroyed then
    { cluster with status := { cluster.status with currentState := planning } }
  else cluster

/-- The loop body from the idle/stalled check onward, applied to the loaded
(and possibly re-planned) cluster: invoke `transition`, absorb any
concurrent spec edit, re-load, merge the status, persist, update the
cached spec, and on `destroyed` attempt the terminal deletion. -/
def cycleLoaded (env : CycleEnv) (c : ControllerState) (st : StoreState)
    (cluster : Cluster) : ControllerState × StoreState × CycleOutcome :=
  if cluster.status.currentState = cluster.spec.desiredState ∨
      cluster.status.waitingForManualRetry then
    (c, st, { noOutcome with idled := true })
  else
    let t := transition env.transitionEnv c cluster
    let c1 := t.1
    let transitionedCluster := t.2.1
    let calls := t.2.2
    let st1 : StoreState :=
      match env.midCycleSpecEdit, st.record with
      | some s, some r => { record := some { r with spec := s } }
      | _, _ => st
    if env.secondGetFails then
      (c1, st1, { noOutcome with invokedTransition := true, calls := calls })
    else
      match st1.record with
      | none =>
        (c1, st1, { noOutcome with invokedTransition := true, calls := calls })
      | some latest =>
        let merged : Cluster := { latest with status := transitionedCluster.status }
        if env.putFails then
          (c1, st1, { noOutcome with invokedTransition := true, calls := calls })
        else
          let st2 : StoreState := { record := some merged }
          let c2 := { c1 with clusterSpec := merged.spec }
          if merged.status.currentState = destroyed then
            if env.deleteFails then
              (c2, st2,
               { noOutcome with invokedTransition := true, calls := calls, attemptedDelete := true })
            else
              (c2, { record := none },
               { noOutcome with invokedTransition := true, calls := calls, attemptedDelete := true, stopped := true })
          else
            (c2, st2, { noOutcome with invokedTransition := true, calls := calls })

/-- One iteration of `clusterController.run` for one notification: load the
record (aborting the cycle on failure), apply the spec-edit check, then run
the rest of the body. -/
def runCycle (env : CycleEnv) (c : ControllerState) (st : StoreState) :
    ControllerState × StoreState × CycleOutcome :=
  if env.firstGetFails then (c, st, noOutcome)
  else
    match st.record with
    | none => (c, st, noOutcome)
    | some cluster => cycleLoaded env c st (respecCluster c.clusterSpec cluster)

/-- An external event driving the loop: a notification (with that cycle's
failure-injection environment) or a spec edit performed by whatever accepts
user edits (it rewrites `Spec` and never touches `Status`). -/
inductive ExtStep where
  | notify (env : CycleEnv)
  | editSpec (s : ClusterSpec)
  deriving DecidableEq, Repr

/-- The controller world: controller fields, store content, and whether the
controller has stopped. -/
structure LoopState where
  ctrl : ControllerState
  store : StoreState
  stopped : Bool
  deriving DecidableEq, Repr

/-- Apply one external event. A notification runs one loop iteration
(doing nothing once the controller has stopped); a spec edit rewrites the
stored record's spec. Returns the new world and the outcomes of any cycle
that ran. -/
def applyStep (ls : LoopState) : ExtStep → LoopState × List CycleOutcome
  | ExtStep.editSpec s =>
    match ls.store.record with
    | some r =>
      ({ ls with store := { record := some { r with spec := s } } }, [])
    | none => (ls, [])
  | ExtStep.notify env =>
    if ls.stopped then (ls, [])
    else
      let r := runCycle env ls.ctrl ls.store
      ({ ctrl := r.1, store := r.2.1, stopped := r.2.2.stopped }, [r.2.2])

/-- Run the loop over a sequence of external events, collecting the outcome
of every cycle that ran. -/
def runSteps (ls : LoopState) : List ExtStep → LoopState × List CycleOutcome
  | [] => (ls, [])
  | step :: rest =>
    let r := applyStep ls step
    let rr := runSteps r.1 rest
    (rr.1, r.2 ++ rr.2)

/-! ## Convergence analysis of the state machine -/

/-- A plan with every field at its zero value, used as a neutral rendered
plan and as the initial in-memory plan of a controller. -/
def defaultPlan : Plan :=
  { cluster := { name := "", adminPassword := "" }
    provisioner := { provider := "", awsOptions := none }
    addOns := { cni := { provider := "" } }
    master := { loadBalancedFQDN := "" }
    etcdNodes := 0
    masterNodes := 0
    workerNodes := 0
    ingressNodes := 0
    networkConfigured := false }

/-- The environment in which every side-effecting action succeeds. -/
def allSuccessEnv : TransitionEnv :=
  { renderEnv :=
      { writeTemplateError := none, readPlanError := none, basePlan := defaultPlan }
    provisionResult := some defaultPlan
    destroyError := none
    preFlightError := none
    generateCertificatesError := none
    generateKubeconfigError := none
    installError := none
    smokeTestError := none }

/-- One application of `transition` under `allSuccessEnv`, keeping the
controller fields and the cluster record. -/
def stepSucc (p : ControllerState × Cluster) : ControllerState × Cluster :=
  let t := transition allSuccessEnv p.1 p.2
  (t.1, t.2.1)

/-- Iterate `stepSucc`. -/
def iterSucc : Nat → ControllerState × Cluster → ControllerState × Cluster
  | 0, p => p
  | n + 1, p => iterSucc n (stepSucc p)

/-- Whether a state name is one of the failure states (`...Failed`), the
five such constants of the state set. -/
def isFailedState (s : String) : Bool :=
  s = planningFailed ∨ s = provisionFailed ∨ s = installFailed ∨
    s = destroyFailed ∨ s = modifyFailed

/-- A record has converged (current state equals the desired state) or is
stalled in a failure state awaiting manual retry. -/
def convergedOrStalled (cluster : Cluster) : Bool :=
  cluster.status.currentState = cluster.spec.desiredState ∨
    (isFailedState cluster.status.currentState ∧ cluster.status.waitingForManualRetry)

/-- The current state after one `transition` step in which every action
succeeds, as a function of the current and desired states alone. -/
def succNext (c d : String) : String :=
  if d = c then c
  else if c = "" then planning
  else if c = planning then planned
  else if c = planned then provisioning
  else if c = planningFailed then if d = destroyed then destroying else planning
  else if c = provisioning then provisioned
  else if c = provisioned then if d = destroyed then destroying else installing
  else if c = provisionFailed then if d = destroyed then destroying else provisioning
  else if c = destroying then destroyed
  else if c = installing then installed
  else if c = installFailed then if d = destroyed then destroying else installing
  else if c = installed then if d = destroyed then destroying else c
  else c

/-- Iterate `succNext` with a fixed desired state. -/
def succIter (d : String) : Nat → String → String
  | 0, c => c
  | n + 1, c => succIter d n (succNext c d)

/-- The current/desired pairs the loop can actually present to
`transition`: closed under transition steps with any action outcome, under
a spec edit to `destroyed` (which keeps the current state), and under any
other spec edit (which the loop resets to `planning`). The desired state of
a record created externally is `installed` or `destroyed`. -/
inductive ReachablePair : String → String → Prop where
  | initInstalled : ReachablePair "" installed
  | initDestroyed : ReachablePair "" destroyed
  | step (c d : String) (env : TransitionEnv) (ctrl : ControllerState)
      (cluster : Cluster) :
      ReachablePair c d → cluster.status.currentState = c →
      cluster.spec.desiredState = d →
      ReachablePair (transition env ctrl cluster).2.1.status.currentState d
  | editDestroyed (c d : String) : ReachablePair c d → ReachablePair c destroyed
  | editInstalled (c d : String) : ReachablePair c d →
      ReachablePair planning installed

/-- The reachable current/desired pairs, enumerated. -/
def reachableList : List (String × String) :=
  [("", installed), (planning, installed), (planned, installed),
   (planningFailed, installed), (provisioning, installed),
   (provisionFailed, installed), (provisioned, installed),
   (installing, installed), (installFailed, installed), (installed, installed),
   ("", destroyed), (planning, destroyed), (planned, destroyed),
   (planningFailed, destroyed), (provisioning, destroyed),
   (provisionFailed, destroyed), (provisioned, destroyed),
   (installing, destroyed), (installFailed, destroyed), (installed, destroyed),
   (destroying, destroyed), (destroyFailed, destroyed), (destroyed, destroyed)]

/-! ## Concrete fixtures used by witnesses and counterexamples -/

/-- A concrete spec asking for an installed cluster. -/
def specInstalled : ClusterSpec :=
  { desiredState := "installed"
    provisioner := { provider := "aws", options := "" }
    etcdCount := 1, masterCount := 1, workerCount := 2, ingressCount := 1 }

/-- A concrete spec asking for a destroyed cluster. -/
def specDestroyed : ClusterSpec := { specInstalled with desiredState := "destroyed" }

/-- A concrete fresh record (initial current state, desiring installation). -/
def clusterFresh : Cluster :=
  { spec := specInstalled
    status := { currentState := "", waitingForManualRetry := false, clusterIP := "" } }

/-- A concrete controller state. -/
def ctrlFixture : ControllerState :=
  { clusterName := "c1", clusterSpec := specInstalled, installPlan := defaultPlan }

/-- A concrete record already at the desired (installed) state. -/
def clusterInstalledRec : Cluster :=
  { spec := specInstalled
    status := { currentState := "installed", waitingForManualRetry := false, clusterIP := "10.0.0.1" } }

/-- A concrete record stuck in `destroyFailed` while destruction is desired. -/
def clusterDestroyFailed : Cluster :=
  { spec := specDestroyed
    status := { currentState := "destroyFailed", waitingForManualRetry := true, clusterIP := "" } }

/-! ## C1 -/

/-- C1 counterexample: on a record with current state `destroyFailed` and
desired state `destroyed`, `transition` does not return `destroying` — the
switch has no `destroyFailed` case, so the record falls into the default
branch and keeps its current state. -/
theorem destroyFailed_retry_counterexample :
    clusterDestroyFailed.status.currentState = destroyFailed ∧
    clusterDestroyFailed.spec.desiredState = destroyed ∧
    (transition allSuccessEnv ctrlFixture clusterDestroyFailed).2.1.status.currentState ≠ destroying := by
  decide

/-- C1 (amended): for every record whose current state is `destroyFailed`
and whose desired state is `destroyed`, `transition` falls into the
unmapped-state fail-safe: the current state stays `destroyFailed`, the
manual-retry stall flag is set, and no action is dispatched. -/
theorem destroyFailed_falls_to_failsafe (env : TransitionEnv)
    (ctrl : ControllerState) (cl : Cluster)
    (h1 : cl.status.currentState = destroyFailed)
    (h2 : cl.spec.desiredState = destroyed) :
    transition env ctrl cl =
      (ctrl, { cl with status := { cl.status with waitingForManualRetry := true } }, []) := by
  unfold transition
  rw [h1, h2]
  simp [planning, planned, planningFailed, provisioning, provisionFailed, provisioned,
    installing, installFailed, installed, destroying, destroyFailed, destroyed]

/-- Witness for C1 (amended) at a concrete record. -/
theorem destroyFailed_falls_to_failsafe_witness :
    clusterDestroyFailed.status.currentState = destroyFailed ∧
    clusterDestroyFailed.spec.desiredState = destroyed ∧
    transition allSuccessEnv ctrlFixture clusterDestroyFailed =
      (ctrlFixture,
       { clusterDestroyFailed with status :=
           { clusterDestroyFailed.status with waitingForManualRetry := true } }, []) :=
  ⟨rfl, rfl, destroyFailed_falls_to_failsafe allSuccessEnv ctrlFixture clusterDestroyFailed rfl rfl⟩

/-! ## C5 -/

/-- C5: when the desired state equals the current state, `transition` is a
no-op — the controller fields and the record are returned unchanged and no
side-effecting call is dispatched. -/
theorem transition_noop_on_converged (env : TransitionEnv)
    (ctrl : ControllerState) (cl : Cluster)
    (h : cl.spec.desiredState = cl.status.currentState) :
    transition env ctrl cl = (ctrl, cl, []) := by
  unfold transition
  rw [if_pos h]

/-- Witness for C5 at a concrete converged record. -/
theorem transition_noop_on_converged_witness :
    clusterInstalledRec.spec.desiredState = clusterInstalledRec.status.currentState ∧
    transition allSuccessEnv ctrlFixture clusterInstalledRec = (ctrlFixture, clusterInstalledRec, []) :=
  ⟨rfl, transition_noop_on_converged allSuccessEnv ctrlFixture clusterInstalledRec rfl⟩

/-! ## C4 -/

/-- A spec that differs from `specInstalled` but still desires installation. -/
def specEditedInstalled : ClusterSpec := { specInstalled with workerCount := 5 }

/-- A spec that differs from `specInstalled` and desires destruction. -/
def specEditedDestroyed : ClusterSpec := { specEditedInstalled with desiredState := "destroyed" }

/-- A loaded record carrying the edited (still installing) spec, mid-install. -/
def clusterEditedInstalled : Cluster :=
  { spec := specEditedInstalled
    status := { currentState := "provisioned", waitingForManualRetry := false, clusterIP := "" } }

/-- A loaded record carrying the edited (destroying) spec. -/
def clusterEditedDestroyed : Cluster :=
  { spec := specEditedDestroyed
    status := { currentState := "provisioned", waitingForManualRetry := false, clusterIP := "" } }

/-- A cycle environment in which every store operation succeeds and no
concurrent edit lands mid-cycle. -/
def cycleEnvOk : CycleEnv :=
  { transitionEnv := allSuccessEnv
    firstGetFails := false
    secondGetFails := false
    putFails := false
    deleteFails := false
    midCycleSpecEdit := none }

/-- C4: in each loop cycle, if the freshly loaded spec differs from the
controller's cached spec and the loaded desired state is not `destroyed`,
the cluster that reaches the idle check has been forced to `planning`; if
the loaded desired state is `destroyed`, the loaded record is passed on
unchanged, whatever the spec difference; and the loop body applies exactly
this adjustment to the loaded record before the idle check. -/
theorem spec_edit_forces_planning (env : CycleEnv) (ctrl : ControllerState)
    (st : StoreState) (cl : Cluster) :
    (cl.spec ≠ ctrl.clusterSpec → cl.spec.desiredState ≠ destroyed →
      (respecCluster ctrl.clusterSpec cl).status.currentState = planning) ∧
    (cl.spec.desiredState = destroyed → respecCluster ctrl.clusterSpec cl = cl) ∧
    (env.firstGetFails = false → st.record = some cl →
      runCycle env ctrl st = cycleLoaded env ctrl st (respecCluster ctrl.clusterSpec cl)) := by
  refine ⟨?_, ?_, ?_⟩
  · intro h1 h2
    unfold respecCluster
    rw [if_pos ⟨h1, h2⟩]
  · intro h
    unfold respecCluster
    rw [if_neg]
    simp [h]
  · intro h1 h2
    unfold runCycle
    rw [h1, h2]
    simp

/-- Witness for C4: a differing spec desiring installation is reset to
`planning`; a differing spec desiring destruction is passed through
unchanged; the loop body routes the loaded record through the adjustment. -/
theorem spec_edit_forces_planning_witness :
    (respecCluster ctrlFixture.clusterSpec clusterEditedInstalled).status.currentState = planning ∧
    respecCluster ctrlFixture.clusterSpec clusterEditedDestroyed = clusterEditedDestroyed ∧
    runCycle cycleEnvOk ctrlFixture { record := some clusterEditedInstalled } =
      cycleLoaded cycleEnvOk ctrlFixture { record := some clusterEditedInstalled }
        (respecCluster ctrlFixture.clusterSpec clusterEditedInstalled) :=
  ⟨(spec_edit_forces_planning cycleEnvOk ctrlFixture { record := some clusterEditedInstalled }
      clusterEditedInstalled).1 (by decide) (by decide),
   (spec_edit_forces_planning cycleEnvOk ctrlFixture { record := some clusterEditedDestroyed }
      clusterEditedDestroyed).2.1 rfl,
   (spec_edit_forces_planning cycleEnvOk ctrlFixture { record := some clusterEditedInstalled }
      clusterEditedInstalled).2.2 rfl rfl⟩

/-! ## C10 -/

/-- C10: every `Install` call dispatched by the install pipeline carries a
dry-run flag of `true`, and every `GenerateCertificates` call carries an
overwrite flag of `false`, for every environment, controller state, record
and plan. -/
theorem install_flag_arguments (env : TransitionEnv) (ctrl : ControllerState)
    (cl : Cluster) (p : Plan) (b : Bool) :
    (Call.install p b ∈ (install env ctrl cl).2.2 → b = true) ∧
    (Call.generateCertificates p b ∈ (install env ctrl cl).2.2 → b = false) := by
  constructor <;>
    · intro hmem
      unfold install at hmem
      cases hnet : ctrl.installPlan.networkConfigured <;>
        (simp only [hnet] at hmem; split_ifs at hmem <;> simp at hmem <;> tauto)

/-- A record mid-install. -/
def clusterInstallingRec : Cluster :=
  { spec := specInstalled
    status := { currentState := "installing", waitingForManualRetry := false, clusterIP := "" } }

/-- Witness for C10: the concrete all-success pipeline dispatches
`Install` with `true` and `GenerateCertificates` with `false`. -/
theorem install_flag_arguments_witness :
    Call.install defaultPlan true ∈ (install allSuccessEnv ctrlFixture clusterInstallingRec).2.2 ∧
    true = true ∧
    Call.generateCertificates defaultPlan false ∈ (install allSuccessEnv ctrlFixture clusterInstallingRec).2.2 ∧
    false = false :=
  ⟨by decide,
   (install_flag_arguments allSuccessEnv ctrlFixture clusterInstallingRec defaultPlan true).1 (by decide),
   by decide,
   (install_flag_arguments allSuccessEnv ctrlFixture clusterInstallingRec defaultPlan false).2 (by decide)⟩

/-! ## C6 -/

/-- C6: the install pipeline runs preflight check, certificate generation,
kubeconfig generation, install, then smoke test, in exactly that order;
the smoke test runs exactly when the plan configures a networking add-on;
the first failing step ends the pipeline in `installFailed`; and when every
executed step succeeds the record reaches `installed`. Each conjunct fixes
the dispatched call list and the resulting state for one outcome of the
pipeline. -/
theorem install_pipeline_order (env : TransitionEnv) (ctrl : ControllerState)
    (cl : Cluster) :
    (env.preFlightError.isSome = true →
      (install env ctrl cl).2.2 = [Call.runPreFlightCheck ctrl.installPlan] ∧
      (install env ctrl cl).2.1.status.currentState = installFailed) ∧
    (env.preFlightError = none → env.generateCertificatesError.isSome = true →
      (install env ctrl cl).2.2 =
        [Call.runPreFlightCheck ctrl.installPlan,
         Call.generateCertificates ctrl.installPlan false] ∧
      (install env ctrl cl).2.1.status.currentState = installFailed) ∧
    (env.preFlightError = none → env.generateCertificatesError = none →
      env.generateKubeconfigError.isSome = true →
      (install env ctrl cl).2.2 =
        [Call.runPreFlightCheck ctrl.installPlan,
         Call.generateCertificates ctrl.installPlan false,
         Call.generateKubeconfig ctrl.installPlan] ∧
      (install env ctrl cl).2.1.status.currentState = installFailed) ∧
    (env.preFlightError = none → env.generateCertificatesError = none →
      env.generateKubeconfigError = none → env.installError.isSome = true →
      (install env ctrl cl).2.2 =
        [Call.runPreFlightCheck ctrl.installPlan,
         Call.generateCertificates ctrl.installPlan false,
         Call.generateKubeconfig ctrl.installPlan,
         Call.install ctrl.installPlan true] ∧
      (install env ctrl cl).2.1.status.currentState = installFailed) ∧
    (env.preFlightError = none → env.generateCertificatesError = none →
      env.generateKubeconfigError = none → env.installError = none →
      ctrl.installPlan.networkConfigured = false →
      (install env ctrl cl).2.2 =
        [Call.runPreFlightCheck ctrl.installPlan,
         Call.generateCertificates ctrl.installPlan false,
         Call.generateKubeconfig ctrl.installPlan,
         Call.install ctrl.installPlan true] ∧
      (install env ctrl cl).2.1.status.currentState = installed) ∧
    (env.preFlightError = none → env.generateCertificatesError = none →
      env.generateKubeconfigError = none → env.installError = none →
      ctrl.installPlan.networkConfigured = true → env.smokeTestError.isSome = true →
      (install env ctrl cl).2.2 =
        [Call.runPreFlightCheck ctrl.installPlan,
         Call.generateCertificates ctrl.installPlan false,
         Call.generateKubeconfig ctrl.installPlan,
         Call.install ctrl.installPlan true,
         Call.runSmokeTest ctrl.installPlan] ∧
      (install env ctrl cl).2.1.status.currentState = installFailed) ∧
    (env.preFlightError = none → env.generateCertificatesError = none →
      env.generateKubeconfigError = none → env.installError = none →
      ctrl.installPlan.networkConfigured = true → env.smokeTestError = none →
      (install env ctrl cl).2.2 =
        [Call.runPreFlightCheck ctrl.installPlan,
         Call.generateCertificates ctrl.installPlan false,
         Call.generateKubeconfig ctrl.installPlan,
         Call.install ctrl.installPlan true,
         Call.runSmokeTest ctrl.installPlan] ∧
      (install env ctrl cl).2.1.status.currentState = installed) := by
  refine ⟨?_, ?_, ?_, ?_, ?_, ?_, ?_⟩ <;>
    · intros
      unfold install
      simp_all [setCurrentState, setFailed]

/-- A controller whose in-memory plan configures a networking add-on. -/
def ctrlNetConfigured : ControllerState :=
  { ctrlFixture with installPlan := { defaultPlan with networkConfigured := true } }

/-- An environment in which only the smoke test fails. -/
def smokeFailEnv : TransitionEnv :=
  { allSuccessEnv with smokeTestError := some "smoke test failed" }

/-- Witness for C6: with a networking add-on configured and only the smoke
test failing, all five steps run in order and the pipeline ends in
`installFailed`. -/
theorem install_pipeline_order_witness :
    (install smokeFailEnv ctrlNetConfigured clusterInstallingRec).2.2 =
      [Call.runPreFlightCheck ctrlNetConfigured.installPlan,
       Call.generateCertificates ctrlNetConfigured.installPlan false,
       Call.generateKubeconfig ctrlNetConfigured.installPlan,
       Call.install ctrlNetConfigured.installPlan true,
       Call.runSmokeTest ctrlNetConfigured.installPlan] ∧
    (install smokeFailEnv ctrlNetConfigured clusterInstallingRec).2.1.status.currentState = installFailed :=
  (install_pipeline_order smokeFailEnv ctrlNetConfigured clusterInstallingRec).2.2.2.2.2.1
    rfl rfl rfl rfl rfl rfl

/-! ## C2 -/

/-- C2: every domain failure path of `transition` — planning,
provisioning, destroying, and every install-pipeline step except the smoke
test — moves the record to the corresponding `...Failed` state with the
manual-retry stall flag set; the single exception is a smoke-test failure,
which sets `installFailed` while leaving the stall flag exactly as it was
on the input record. -/
theorem failure_paths_stall_except_smoke (env : TransitionEnv)
    (ctrl : ControllerState) (cl : Cluster) :
    (cl.status.currentState = planning → cl.spec.desiredState ≠ planning →
      (∃ e, buildPlan env.renderEnv ctrl.clusterName cl.spec
          ctrl.installPlan.cluster.adminPassword = Except.error e) →
      (transition env ctrl cl).2.1.status.currentState = planningFailed ∧
      (transition env ctrl cl).2.1.status.waitingForManualRetry = true) ∧
    (cl.status.currentState = provisioning → cl.spec.desiredState ≠ provisioning →
      env.provisionResult = none →
      (transition env ctrl cl).2.1.status.currentState = provisionFailed ∧
      (transition env ctrl cl).2.1.status.waitingForManualRetry = true) ∧
    (cl.status.currentState = destroying → cl.spec.desiredState ≠ destroying →
      env.destroyError.isSome = true →
      (transition env ctrl cl).2.1.status.currentState = destroyFailed ∧
      (transition env ctrl cl).2.1.status.waitingForManualRetry = true) ∧
    (cl.status.currentState = installing → cl.spec.desiredState ≠ installing →
      env.preFlightError.isSome = true →
      (transition env ctrl cl).2.1.status.currentState = installFailed ∧
      (transition env ctrl cl).2.1.status.waitingForManualRetry = true) ∧
    (cl.status.currentState = installing → cl.spec.desiredState ≠ installing →
      env.preFlightError = none → env.generateCertificatesError.isSome = true →
      (transition env ctrl cl).2.1.status.currentState = installFailed ∧
      (transition env ctrl cl).2.1.status.waitingForManualRetry = true) ∧
    (cl.status.currentState = installing → cl.spec.desiredState ≠ installing →
      env.preFlightError = none → env.generateCertificatesError = none →
      env.generateKubeconfigError.isSome = true →
      (transition env ctrl cl).2.1.status.currentState = installFailed ∧
      (transition env ctrl cl).2.1.status.waitingForManualRetry = true) ∧
    (cl.status.currentState = installing → cl.spec.desiredState ≠ installing →
      env.preFlightError = none → env.generateCertificatesError = none →
      env.generateKubeconfigError = none → env.installError.isSome = true →
      (transition env ctrl cl).2.1.status.currentState = installFailed ∧
      (transition env ctrl cl).2.1.status.waitingForManualRetry = true) ∧
    (cl.status.currentState = installing → cl.spec.desiredState ≠ installing →
      env.preFlightError = none → env.generateCertificatesError = none →
      env.generateKubeconfigError = none → env.installError = none →
      ctrl.installPlan.networkConfigured = true → env.smokeTestError.isSome = true →
      (transition env ctrl cl).2.1.status.currentState = installFailed ∧
      (transition env ctrl cl).2.1.status.waitingForManualRetry =
        cl.status.waitingForManualRetry) := by
  refine ⟨?_, ?_, ?_, ?_, ?_, ?_, ?_, ?_⟩
  · intro h1 h2 h3
    obtain ⟨e, he⟩ := h3
    simp_all [transition, plan, he, setFailed, planning, planned, planningFailed,
      provisioning, provisionFailed, provisioned, installing, installFailed,
      installed, destroying, destroyFailed, destroyed]
  pick_goal 2
  · intro h1 h2 h3
    obtain ⟨e, he⟩ := Option.isSome_iff_exists.mp h3
    simp_all [transition, destroy, he, setFailed, planning, planned, planningFailed,
      provisioning, provisionFailed, provisioned, installing, installFailed,
      installed, destroying, destroyFailed, destroyed]
  all_goals
    intros
    simp_all [transition, provision, destroy, install, setFailed, setCurrentState,
      planning, planned, planningFailed, provisioning, provisionFailed, provisioned,
      installing, installFailed, installed, destroying, destroyFailed, destroyed]

/-- An environment in which destroying fails. -/
def destroyFailEnv : TransitionEnv :=
  { allSuccessEnv with destroyError := some "destroy failed" }

/-- A record mid-destroy. -/
def clusterDestroyingRec : Cluster :=
  { spec := specDestroyed
    status := { currentState := "destroying", waitingForManualRetry := false, clusterIP := "" } }

/-- Witness for C2: a destroy failure lands in `destroyFailed` with the
stall flag set, and a smoke-test failure lands in `installFailed` with the
stall flag untouched. -/
theorem failure_paths_stall_except_smoke_witness :
    ((transition destroyFailEnv ctrlFixture clusterDestroyingRec).2.1.status.currentState = destroyFailed ∧
      (transition destroyFailEnv ctrlFixture clusterDestroyingRec).2.1.status.waitingForManualRetry = true) ∧
    ((transition smokeFailEnv ctrlNetConfigured clusterInstallingRec).2.1.status.currentState = installFailed ∧
      (transition smokeFailEnv ctrlNetConfigured clusterInstallingRec).2.1.status.waitingForManualRetry =
        clusterInstallingRec.status.waitingForManualRetry) :=
  ⟨(failure_paths_stall_except_smoke destroyFailEnv ctrlFixture clusterDestroyingRec).2.2.1
      rfl (by decide) rfl,
   (failure_paths_stall_except_smoke smokeFailEnv ctrlNetConfigured clusterInstallingRec).2.2.2.2.2.2.2
      rfl (by decide) rfl rfl rfl rfl rfl rfl⟩

/-! ## C9 -/

/-- C9: `buildPlan` fails only when template rendering or plan parsing
fails; on success the plan keeps the supplied admin credential and cluster
name, carries the spec's provider, an `azure` provider forces the CNI
add-on provider to the default implementation (`weave`), an `aws` provider
sets the AWS provider options to their zero value, and any other provider
gets no special defaulting. -/
theorem buildPlan_contract (renv : RenderEnv) (name : String) (s : ClusterSpec)
    (pw : String) :
    ((∃ e, buildPlan renv name s pw = Except.error e) →
      renv.writeTemplateError.isSome = true ∨ renv.readPlanError.isSome = true) ∧
    (∀ p, buildPlan renv name s pw = Except.ok p →
      p.cluster.adminPassword = pw ∧
      p.cluster.name = name ∧
      p.provisioner.provider = s.provisioner.provider ∧
      (s.provisioner.provider = "azure" → p.addOns.cni.provider = "weave") ∧
      (s.provisioner.provider = "aws" → p.provisioner.awsOptions = some { region := "" }) ∧
      (s.provisioner.provider ≠ "aws" → s.provisioner.provider ≠ "azure" →
        p.provisioner.awsOptions = none ∧ p.addOns.cni = renv.basePlan.addOns.cni)) := by
  constructor
  · rintro ⟨e, he⟩
    rcases hw : renv.writeTemplateError with _ | e1
    · rcases hr : renv.readPlanError with _ | e2
      · exfalso
        simp [buildPlan, writePlanTemplate, plannerRead, hw, hr] at he
      · right
        simp [hr]
    · left
      simp [hw]
  · intro p hp
    rcases hw : renv.writeTemplateError with _ | e1
    · rcases hr : renv.readPlanError with _ | e2
      · simp [buildPlan, writePlanTemplate, plannerRead, hw, hr] at hp
        by_cases ha : s.provisioner.provider = "aws"
        · simp [ha] at hp
          simp [← hp, ha]
        · by_cases hz : s.provisioner.provider = "azure"
          · simp [ha, hz] at hp
            simp [← hp, ha, hz]
          · simp [ha, hz] at hp
            simp [← hp, ha, hz]
      · simp [buildPlan, writePlanTemplate, plannerRead, hw, hr] at hp
    · simp [buildPlan, writePlanTemplate, hw] at hp

/-- A render environment with no failures. -/
def renvFixture : RenderEnv :=
  { writeTemplateError := none, readPlanError := none, basePlan := defaultPlan }

/-- A render environment whose template rendering fails. -/
def renvWriteErr : RenderEnv := { renvFixture with writeTemplateError := some "boom" }

/-- A spec choosing the azure provider. -/
def specAzure : ClusterSpec :=
  { specInstalled with provisioner := { provider := "azure", options := "" } }

/-- The plan `buildPlan` produces for `specAzure` under `renvFixture`. -/
def planAzureFixture : Plan :=
  { cluster := { name := "c1", adminPassword := "secret" }
    provisioner := { provider := "azure", awsOptions := none }
    addOns := { cni := { provider := "weave" } }
    master := { loadBalancedFQDN := "" }
    etcdNodes := 1
    masterNodes := 1
    workerNodes := 2
    ingressNodes := 1
    networkConfigured := false }

/-- Witness for C9: the azure plan is built as described, and a rendering
failure surfaces as a `buildPlan` error. -/
theorem buildPlan_contract_witness :
    (planAzureFixture.cluster.adminPassword = "secret" ∧
      planAzureFixture.cluster.name = "c1" ∧
      planAzureFixture.provisioner.provider = specAzure.provisioner.provider ∧
      (specAzure.provisioner.provider = "azure" →
        planAzureFixture.addOns.cni.provider = "weave") ∧
      (specAzure.provisioner.provider = "aws" →
        planAzureFixture.provisioner.awsOptions = some { region := "" }) ∧
      (specAzure.provisioner.provider ≠ "aws" → specAzure.provisioner.provider ≠ "azure" →
        planAzureFixture.provisioner.awsOptions = none ∧
        planAzureFixture.addOns.cni = renvFixture.basePlan.addOns.cni)) ∧
    (renvWriteErr.writeTemplateError.isSome = true ∨
      renvWriteErr.readPlanError.isSome = true) :=
  ⟨(buildPlan_contract renvFixture "c1" specAzure "secret").2 planAzureFixture rfl,
   (buildPlan_contract renvWriteErr "c1" specAzure "secret").1
     ⟨"could not decode request body: boom", rfl⟩⟩

/-! ## The loop over external events: helper lemmas -/

/-- Unfolding lemma for `runSteps` on a cons cell. -/
theorem runSteps_cons (ls : LoopState) (step : ExtStep) (rest : List ExtStep) :
    runSteps ls (step :: rest) =
      ((runSteps (applyStep ls step).1 rest).1,
       (applyStep ls step).2 ++ (runSteps (applyStep ls step).1 rest).2) := rfl

/-- A cycle that loads a record whose stall flag is set does nothing: the
controller fields and the store are unchanged, `transition` is not
invoked, no call is dispatched, and the controller does not stop. -/
theorem runCycle_stalled (env : CycleEnv) (c : ControllerState) (st : StoreState)
    (cl : Cluster) (hrec : st.record = some cl)
    (hflag : cl.status.waitingForManualRetry = true) :
    ∃ o, runCycle env c st = (c, st, o) ∧ o.invokedTransition = false ∧
      o.calls = [] ∧ o.attemptedDelete = false ∧ o.stopped = false := by
  unfold runCycle
  cases hg : env.firstGetFails
  · simp only [hg, hrec, Bool.false_eq_true, if_false]
    unfold cycleLoaded respecCluster
    split_ifs <;> simp_all [noOutcome]
  · exact ⟨noOutcome, by simp [hg, noOutcome], rfl, rfl, rfl, rfl⟩

/-- A cycle that loads a record already at `destroyed == desired` idles
before reaching the deletion step: nothing changes, `transition` is not
invoked, and no deletion is attempted. -/
theorem runCycle_idle_destroyed (env : CycleEnv) (c : ControllerState)
    (st : StoreState) (cl : Cluster) (hrec : st.record = some cl)
    (hcur : cl.status.currentState = destroyed)
    (hdes : cl.spec.desiredState = destroyed) :
    ∃ o, runCycle env c st = (c, st, o) ∧ o.invokedTransition = false ∧
      o.calls = [] ∧ o.attemptedDelete = false ∧ o.stopped = false := by
  unfold runCycle
  cases hg : env.firstGetFails
  · simp only [hg, hrec, Bool.false_eq_true, if_false]
    unfold cycleLoaded respecCluster
    split_ifs <;> simp_all [noOutcome]
  · exact ⟨noOutcome, by simp [hg, noOutcome], rfl, rfl, rfl, rfl⟩

/-! ## C7 -/

/-- C7: once a stored record's `WaitingForManualRetry` flag is set, no
subsequent notification or spec edit makes the loop invoke `transition`
(or dispatch any external call) for that cluster — and the stored status,
flag included, survives every such event unchanged, so only a party
outside the controller can clear it. -/
theorem stall_latch_blocks_transition (steps : List ExtStep) (ls : LoopState)
    (cl : Cluster) (hrec : ls.store.record = some cl)
    (hflag : cl.status.waitingForManualRetry = true) :
    (∀ o ∈ (runSteps ls steps).2, o.invokedTransition = false ∧ o.calls = []) ∧
    (∃ cl2, (runSteps ls steps).1.store.record = some cl2 ∧ cl2.status = cl.status) := by
  induction steps generalizing ls cl with
  | nil =>
    exact ⟨by simp [runSteps], ⟨cl, hrec, rfl⟩⟩
  | cons step rest ih =>
    cases step with
    | editSpec s =>
      have happ : applyStep ls (ExtStep.editSpec s) =
          ({ ls with store := { record := some { cl with spec := s } } }, []) := by
        simp [applyStep, hrec]
      obtain ⟨ha, cl2, hb, hc⟩ :=
        ih { ls with store := { record := some { cl with spec := s } } }
          { cl with spec := s } rfl hflag
      rw [runSteps_cons, happ]
      exact ⟨by simpa using ha, ⟨cl2, hb, hc⟩⟩
    | notify env =>
      by_cases hstop : ls.stopped = true
      · have happ : applyStep ls (ExtStep.notify env) = (ls, []) := by
          simp [applyStep, hstop]
        obtain ⟨ha, cl2, hb, hc⟩ := ih ls cl hrec hflag
        rw [runSteps_cons, happ]
        exact ⟨by simpa using ha, ⟨cl2, hb, hc⟩⟩
      · obtain ⟨o, ho, h1, h2, h3, h4⟩ := runCycle_stalled env ls.ctrl ls.store cl hrec hflag
        have happ : applyStep ls (ExtStep.notify env) =
            ({ ctrl := ls.ctrl, store := ls.store, stopped := false }, [o]) := by
          simp [applyStep, hstop, ho, h4]
        obtain ⟨ha, cl2, hb, hc⟩ :=
          ih { ctrl := ls.ctrl, store := ls.store, stopped := false } cl hrec hflag
        rw [runSteps_cons, happ]
        constructor
        · intro q hq
          simp only [List.mem_append, List.mem_singleton] at hq
          rcases hq with hq | hq
          · subst hq
            exact ⟨h1, h2⟩
          · exact ha q hq
        · exact ⟨cl2, hb, hc⟩

/-- A record stalled in `provisionFailed` awaiting manual retry. -/
def clusterStalled : Cluster :=
  { spec := specInstalled
    status := { currentState := "provisionFailed", waitingForManualRetry := true, clusterIP := "" } }

/-- The stalled loop state used by the C7 witness. -/
def lsStalled : LoopState :=
  { ctrl := ctrlFixture, store := { record := some clusterStalled }, stopped := false }

/-- A concrete event sequence: notification, spec edit, notification. -/
def stalledSteps : List ExtStep :=
  [ExtStep.notify cycleEnvOk, ExtStep.editSpec specEditedInstalled,
   ExtStep.notify cycleEnvOk]

/-- Witness for C7 over a concrete stalled record and event sequence. -/
theorem stall_latch_blocks_transition_witness :
    (∀ o ∈ (runSteps lsStalled stalledSteps).2, o.invokedTransition = false ∧ o.calls = []) ∧
    (∃ cl2, (runSteps lsStalled stalledSteps).1.store.record = some cl2 ∧
      cl2.status = clusterStalled.status) :=
  stall_latch_blocks_transition stalledSteps lsStalled clusterStalled rfl rfl

/-! ## C8 -/

/-- A destroyed-but-not-deleted record never sees another `transition`
invocation or deletion attempt, as long as every spec edit keeps desiring
destruction: each notification idles at the `current == desired` guard. -/
theorem destroyed_record_idles (steps : List ExtStep) (ls : LoopState) (cl : Cluster)
    (hrec : ls.store.record = some cl)
    (hcur : cl.status.currentState = destroyed)
    (hdes : cl.spec.desiredState = destroyed)
    (hsteps : ∀ s, ExtStep.editSpec s ∈ steps → s.desiredState = destroyed) :
    (∀ o ∈ (runSteps ls steps).2, o.invokedTransition = false ∧ o.attemptedDelete = false) ∧
    (∃ cl2, (runSteps ls steps).1.store.record = some cl2 ∧
      cl2.status = cl.status ∧ cl2.spec.desiredState = destroyed) := by
  induction steps generalizing ls cl with
  | nil =>
    exact ⟨by simp [runSteps], ⟨cl, hrec, rfl, hdes⟩⟩
  | cons step rest ih =>
    cases step with
    | editSpec s =>
      have hdes2 : s.desiredState = destroyed := hsteps s (by simp)
      have happ : applyStep ls (ExtStep.editSpec s) =
          ({ ls with store := { record := some { cl with spec := s } } }, []) := by
        simp [applyStep, hrec]
      obtain ⟨ha, cl2, hb, hc, hd⟩ :=
        ih { ls with store := { record := some { cl with spec := s } } }
          { cl with spec := s } rfl hcur hdes2
          (fun q hq => hsteps q (by simp [hq]))
      rw [runSteps_cons, happ]
      exact ⟨by simpa using ha, ⟨cl2, hb, hc, hd⟩⟩
    | notify env =>
      by_cases hstop : ls.stopped = true
      · have happ : applyStep ls (ExtStep.notify env) = (ls, []) := by
          simp [applyStep, hstop]
        obtain ⟨ha, cl2, hb, hc, hd⟩ := ih ls cl hrec hcur hdes
          (fun q hq => hsteps q (by simp [hq]))
        rw [runSteps_cons, happ]
        exact ⟨by simpa using ha, ⟨cl2, hb, hc, hd⟩⟩
      · obtain ⟨o, ho, h1, h2, h3, h4⟩ :=
          runCycle_idle_destroyed env ls.ctrl ls.store cl hrec hcur hdes
        have happ : applyStep ls (ExtStep.notify env) =
            ({ ctrl := ls.ctrl, store := ls.store, stopped := false }, [o]) := by
          simp [applyStep, hstop, ho, h4]
        obtain ⟨ha, cl2, hb, hc, hd⟩ :=
          ih { ctrl := ls.ctrl, store := ls.store, stopped := false } cl hrec hcur hdes
            (fun q hq => hsteps q (by simp [hq]))
        rw [runSteps_cons, happ]
        constructor
        · intro q hq
          simp only [List.mem_append, List.mem_singleton] at hq
          rcases hq with hq | hq
          · subst hq
            exact ⟨h1, h3⟩
          · exact ha q hq
        · exact ⟨cl2, hb, hc, hd⟩

/-- The cycle in which destroy succeeds but the terminal store deletion
fails: the record is persisted with `CurrentState = destroyed` (equal to
the desired state), the deletion was attempted, and the controller keeps
running. -/
theorem runCycle_destroy_delete_fails (env : CycleEnv) (c : ControllerState)
    (st : StoreState) (cl : Cluster) (hrec : st.record = some cl)
    (hcur : cl.status.currentState = destroying)
    (hdes : cl.spec.desiredState = destroyed)
    (hflag : cl.status.waitingForManualRetry = false)
    (hg1 : env.firstGetFails = false) (hg2 : env.secondGetFails = false)
    (hput : env.putFails = false) (hdel : env.deleteFails = true)
    (hmid : env.midCycleSpecEdit = none)
    (hdestroy : env.transitionEnv.destroyError = none) :
    runCycle env c st =
      ({ c with clusterSpec := cl.spec },
       { record := some { cl with status := { cl.status with currentState := destroyed } } },
       { invokedTransition := true, calls := [Call.destroy c.clusterName],
         attemptedDelete := true, idled := false, stopped := false }) := by
  unfold runCycle cycleLoaded respecCluster
  simp [hg1, hrec, hcur, hdes, hflag, hg2, hput, hdel, hmid, transition, destroy,
    hdestroy, setCurrentState, noOutcome, planning, planned, planningFailed,
    provisioning, provisionFailed, provisioned, installing, installFailed,
    installed, destroying, destroyFailed, destroyed]

/-- The loop state after one cycle: the controller fields, store state and
stopped flag that `applyStep` carries into the next event. -/
def afterCycle (env : CycleEnv) (c : ControllerState) (st : StoreState) : LoopState :=
  { ctrl := (runCycle env c st).1
    store := (runCycle env c st).2.1
    stopped := (runCycle env c st).2.2.stopped }

/-- C8: when the destroy action succeeds but the store deletion fails, the
record stays persisted with `CurrentState = destroyed`, equal to the
desired state, and no later cycle ever attempts the deletion again — every
subsequent notification (and spec edit that keeps desiring destruction)
takes the idle branch before reaching the deletion step, never invoking
`transition` and leaving the destroyed record in the store. -/
theorem destroy_delete_deadend (env : CycleEnv) (c : ControllerState)
    (st : StoreState) (cl : Cluster) (steps : List ExtStep)
    (hrec : st.record = some cl)
    (hcur : cl.status.currentState = destroying)
    (hdes : cl.spec.desiredState = destroyed)
    (hflag : cl.status.waitingForManualRetry = false)
    (hg1 : env.firstGetFails = false) (hg2 : env.secondGetFails = false)
    (hput : env.putFails = false) (hdel : env.deleteFails = true)
    (hmid : env.midCycleSpecEdit = none)
    (hdestroy : env.transitionEnv.destroyError = none)
    (hsteps : ∀ s, ExtStep.editSpec s ∈ steps → s.desiredState = destroyed) :
    (runCycle env c st).2.1.record =
      some { cl with status := { cl.status with currentState := destroyed } } ∧
    (runCycle env c st).2.2.attemptedDelete = true ∧
    (runCycle env c st).2.2.stopped = false ∧
    (∀ o ∈ (runSteps (afterCycle env c st) steps).2,
      o.invokedTransition = false ∧ o.attemptedDelete = false) ∧
    (∃ cl2, (runSteps (afterCycle env c st) steps).1.store.record = some cl2 ∧
      cl2.status.currentState = destroyed) := by
  have hA := runCycle_destroy_delete_fails env c st cl hrec hcur hdes hflag
    hg1 hg2 hput hdel hmid hdestroy
  unfold afterCycle
  rw [hA]
  obtain ⟨hB, cl2, hb, hc, hd⟩ := destroyed_record_idles steps
    { ctrl := { c with clusterSpec := cl.spec }
      store := { record := some { cl with status := { cl.status with currentState := destroyed } } }
      stopped := false }
    { cl with status := { cl.status with currentState := destroyed } }
    rfl rfl hdes hsteps
  refine ⟨rfl, rfl, rfl, hB, ⟨cl2, hb, ?_⟩⟩
  rw [hc]

/-- A cycle environment in which only the terminal deletion fails. -/
def cycleEnvDel : CycleEnv := { cycleEnvOk with deleteFails := true }

/-- Events after the failed deletion: notifications plus an edit that still
desires destruction. -/
def deadendSteps : List ExtStep :=
  [ExtStep.notify cycleEnvOk, ExtStep.editSpec specDestroyed,
   ExtStep.notify cycleEnvDel]

/-- The store holding the concrete mid-destroy record. -/
def stDestroying : StoreState := { record := some clusterDestroyingRec }

/-- Witness for C8 over a concrete record mid-destroy and a concrete
follow-up event sequence. -/
theorem destroy_delete_deadend_witness :
    (runCycle cycleEnvDel ctrlFixture stDestroying).2.1.record =
      some { clusterDestroyingRec with status :=
        { clusterDestroyingRec.status with currentState := destroyed } } ∧
    (runCycle cycleEnvDel ctrlFixture stDestroying).2.2.attemptedDelete = true ∧
    (runCycle cycleEnvDel ctrlFixture stDestroying).2.2.stopped = false ∧
    (∀ o ∈ (runSteps (afterCycle cycleEnvDel ctrlFixture stDestroying) deadendSteps).2,
      o.invokedTransition = false ∧ o.attemptedDelete = false) ∧
    (∃ cl2, (runSteps (afterCycle cycleEnvDel ctrlFixture stDestroying) deadendSteps).1.store.record = some cl2 ∧
      cl2.status.currentState = destroyed) :=
  destroy_delete_deadend cycleEnvDel ctrlFixture stDestroying
    clusterDestroyingRec deadendSteps rfl rfl rfl rfl rfl rfl rfl rfl rfl rfl
    (by
      intro s hs
      simp [deadendSteps] at hs
      subst hs
      rfl)

/-! ## C3 -/

/-- The planning stage lands in `planned` or `planningFailed`. -/
theorem plan_current (env : TransitionEnv) (c : ControllerState) (cluster : Cluster) :
    (plan env c cluster).2.1.status.currentState = planned ∨
    (plan env c cluster).2.1.status.currentState = planningFailed := by
  unfold plan
  cases h : buildPlan env.renderEnv c.clusterName cluster.spec
      c.installPlan.cluster.adminPassword <;>
    simp [setFailed, setCurrentState]

/-- The provisioning stage lands in `provisioned` or `provisionFailed`. -/
theorem provision_current (env : TransitionEnv) (c : ControllerState) (cluster : Cluster) :
    (provision env c cluster).2.1.status.currentState = provisioned ∨
    (provision env c cluster).2.1.status.currentState = provisionFailed := by
  unfold provision
  cases h : env.provisionResult <;> simp [setFailed, setCurrentState]

/-- The destroying stage lands in `destroyed` or `destroyFailed`. -/
theorem destroy_current (env : TransitionEnv) (c : ControllerState) (cluster : Cluster) :
    (destroy env c cluster).2.1.status.currentState = destroyed ∨
    (destroy env c cluster).2.1.status.currentState = destroyFailed := by
  unfold destroy
  cases h : env.destroyError <;> simp [setFailed, setCurrentState]

/-- The install pipeline lands in `installed` or `installFailed`. -/
theorem install_current (env : TransitionEnv) (c : ControllerState) (cluster : Cluster) :
    (install env c cluster).2.1.status.currentState = installed ∨
    (install env c cluster).2.1.status.currentState = installFailed := by
  unfold install
  cases hnet : c.installPlan.networkConfigured <;>
    simp only [hnet, Bool.not_false, Bool.not_true] <;>
    split_ifs <;> simp [setFailed, setCurrentState]

set_option maxHeartbeats 1000000 in
/-- The reachable pair set is closed under one `transition` step with any
action outcome. -/
theorem transition_step_closed (env : TransitionEnv) (ctrl : ControllerState)
    (cluster : Cluster) (c d : String)
    (hc : cluster.status.currentState = c) (hd : cluster.spec.desiredState = d)
    (hmem : (c, d) ∈ reachableList) :
    ((transition env ctrl cluster).2.1.status.currentState, d) ∈ reachableList := by
  simp only [reachableList, List.mem_cons, List.not_mem_nil, or_false,
    Prod.mk.injEq] at hmem
  rcases hmem with ⟨h1, h2⟩ | ⟨h1, h2⟩ | ⟨h1, h2⟩ | ⟨h1, h2⟩ | ⟨h1, h2⟩ | ⟨h1, h2⟩ | ⟨h1, h2⟩ | ⟨h1, h2⟩ | ⟨h1, h2⟩ | ⟨h1, h2⟩ | ⟨h1, h2⟩ | ⟨h1, h2⟩ | ⟨h1, h2⟩ | ⟨h1, h2⟩ | ⟨h1, h2⟩ | ⟨h1, h2⟩ | ⟨h1, h2⟩ | ⟨h1, h2⟩ | ⟨h1, h2⟩ | ⟨h1, h2⟩ | ⟨h1, h2⟩ | ⟨h1, h2⟩ | ⟨h1, h2⟩ <;>
    subst h1 <;> subst h2 <;>
    first
      | (simp [transition, hc, hd, reachableList, setCurrentState, planning, planned, planningFailed, provisioning, provisionFailed, provisioned, installing, installFailed, installed, destroying, destroyFailed, destroyed]; done)
      | ((rcases plan_current env ctrl cluster with h | h <;>
          simp [transition, hc, hd, h, reachableList, setCurrentState, planning, planned, planningFailed, provisioning, provisionFailed, provisioned, installing, installFailed, installed, destroying, destroyFailed, destroyed]); done)
      | ((rcases provision_current env ctrl cluster with h | h <;>
          simp [transition, hc, hd, h, reachableList, setCurrentState, planning, planned, planningFailed, provisioning, provisionFailed, provisioned, installing, installFailed, installed, destroying, destroyFailed, destroyed]); done)
      | ((rcases destroy_current env ctrl cluster with h | h <;>
          simp [transition, hc, hd, h, reachableList, setCurrentState, planning, planned, planningFailed, provisioning, provisionFailed, provisioned, installing, installFailed, installed, destroying, destroyFailed, destroyed]); done)
      | ((rcases install_current env ctrl cluster with h | h <;>
          simp [transition, hc, hd, h, reachableList, setCurrentState, planning, planned, planningFailed, provisioning, provisionFailed, provisioned, installing, installFailed, installed, destroying, destroyFailed, destroyed]); done)

/-- The reachable pair set is closed under a spec edit to `destroyed`. -/
theorem editDestroyed_closed :
    ∀ p ∈ reachableList, ((p : String × String).1, destroyed) ∈ reachableList := by
  decide

/-- Every reachable pair is in the enumeration `reachableList`. -/
theorem reachable_mem (c d : String) (h : ReachablePair c d) :
    (c, d) ∈ reachableList := by
  induction h with
  | initInstalled => decide
  | initDestroyed => decide
  | step c d env ctrl cluster hr hc hd ih =>
    exact transition_step_closed env ctrl cluster c d hc hd ih
  | editDestroyed c d hr ih =>
    exact editDestroyed_closed (c, d) ih
  | editInstalled c d hr ih =>
    decide

/-- The reachable pair set is closed under the all-success successor. -/
theorem succNext_closed :
    ∀ p ∈ reachableList, (succNext (p : String × String).1 p.2, p.2) ∈ reachableList := by
  decide

set_option maxHeartbeats 1000000 in
/-- On a reachable pair, one all-success step moves the current state to
`succNext` and leaves the spec untouched. -/
theorem stepSucc_pair (ctrl : ControllerState) (cluster : Cluster) (c d : String)
    (hc : cluster.status.currentState = c) (hd : cluster.spec.desiredState = d)
    (hmem : (c, d) ∈ reachableList) :
    (stepSucc (ctrl, cluster)).2.status.currentState = succNext c d ∧
    (stepSucc (ctrl, cluster)).2.spec = cluster.spec := by
  simp only [reachableList, List.mem_cons, List.not_mem_nil, or_false,
    Prod.mk.injEq] at hmem
  rcases hmem with ⟨h1, h2⟩ | ⟨h1, h2⟩ | ⟨h1, h2⟩ | ⟨h1, h2⟩ | ⟨h1, h2⟩ | ⟨h1, h2⟩ | ⟨h1, h2⟩ | ⟨h1, h2⟩ | ⟨h1, h2⟩ | ⟨h1, h2⟩ | ⟨h1, h2⟩ | ⟨h1, h2⟩ | ⟨h1, h2⟩ | ⟨h1, h2⟩ | ⟨h1, h2⟩ | ⟨h1, h2⟩ | ⟨h1, h2⟩ | ⟨h1, h2⟩ | ⟨h1, h2⟩ | ⟨h1, h2⟩ | ⟨h1, h2⟩ | ⟨h1, h2⟩ | ⟨h1, h2⟩ <;>
    subst h1 <;> subst h2 <;>
    first
      | (simp [stepSucc, transition, hc, hd, succNext, plan, provision, destroy,
          install, allSuccessEnv, buildPlan, writePlanTemplate, plannerRead,
          setCurrentState, setFailed, defaultPlan, planning, planned, planningFailed, provisioning, provisionFailed, provisioned, installing, installFailed, installed, destroying, destroyFailed, destroyed]; done)
      | (cases hnet : ctrl.installPlan.networkConfigured <;>
          simp [stepSucc, transition, hc, hd, succNext, plan, provision, destroy,
            install, allSuccessEnv, buildPlan, writePlanTemplate, plannerRead,
            setCurrentState, setFailed, defaultPlan, hnet, planning, planned, planningFailed, provisioning, provisionFailed, provisioned, installing, installFailed, installed, destroying, destroyFailed, destroyed] <;> done)

/-- On a reachable pair, `n` all-success steps move the current state to
the `n`-fold `succNext` iterate and leave the spec untouched. -/
theorem iter_pair (n : Nat) : ∀ (ctrl : ControllerState) (cluster : Cluster)
    (c d : String), cluster.status.currentState = c →
    cluster.spec.desiredState = d → (c, d) ∈ reachableList →
    (iterSucc n (ctrl, cluster)).2.status.currentState = succIter d n c ∧
    (iterSucc n (ctrl, cluster)).2.spec = cluster.spec := by
  induction n with
  | zero =>
    intro ctrl cluster c d hc hd hmem
    exact ⟨hc, rfl⟩
  | succ n ih =>
    intro ctrl cluster c d hc hd hmem
    obtain ⟨h1, h2⟩ := stepSucc_pair ctrl cluster c d hc hd hmem
    have hd2 : (stepSucc (ctrl, cluster)).2.spec.desiredState = d := by rw [h2, hd]
    have hmem2 : (succNext c d, d) ∈ reachableList := succNext_closed (c, d) hmem
    obtain ⟨h3, h4⟩ := ih (stepSucc (ctrl, cluster)).1 (stepSucc (ctrl, cluster)).2
      (succNext c d) d h1 hd2 hmem2
    exact ⟨h3, h4.trans h2⟩

/-- An all-success step from `destroyFailed` under a destroy request hits
the fail-safe: the status keeps its state and gains the stall flag. -/
theorem stepSucc_destroyFailed (ctrl : ControllerState) (cluster : Cluster)
    (hc : cluster.status.currentState = destroyFailed)
    (hd : cluster.spec.desiredState = destroyed) :
    (stepSucc (ctrl, cluster)).2.status =
      { cluster.status with waitingForManualRetry := true } := by
  simp [stepSucc, transition, hc, hd, planning, planned, planningFailed, provisioning, provisionFailed, provisioned, installing, installFailed, installed, destroying, destroyFailed, destroyed]

/-- If the successor chain reaches the desired state within `n` steps, the
iterated all-success transition converges. -/
theorem converged_of_iter (ctrl : ControllerState) (cl : Cluster) (n : Nat)
    (hn : n ≤ 6) (c d : String) (hc : cl.status.currentState = c)
    (hd : cl.spec.desiredState = d) (hmem : (c, d) ∈ reachableList)
    (hiter : succIter d n c = d) :
    ∃ m, m ≤ 6 ∧ convergedOrStalled (iterSucc m (ctrl, cl)).2 = true := by
  obtain ⟨hcur, hspec⟩ := iter_pair n ctrl cl c d hc hd hmem
  refine ⟨n, hn, ?_⟩
  rw [hiter] at hcur
  simp [convergedOrStalled, hcur, hspec, hd]

/-- From `destroyFailed` with destruction desired, one step stalls in a
failure state. -/
theorem converged_destroyFailed_case (ctrl : ControllerState) (cl : Cluster)
    (hc : cl.status.currentState = destroyFailed)
    (hd : cl.spec.desiredState = destroyed) :
    ∃ m, m ≤ 6 ∧ convergedOrStalled (iterSucc m (ctrl, cl)).2 = true := by
  refine ⟨1, by norm_num, ?_⟩
  have hs := stepSucc_destroyFailed ctrl cl hc hd
  have hcur : (stepSucc (ctrl, cl)).2.status.currentState = destroyFailed := by
    rw [hs]
    exact hc
  have hflag : (stepSucc (ctrl, cl)).2.status.waitingForManualRetry = true := by
    rw [hs]
  have hfs : isFailedState destroyFailed = true := by decide
  show convergedOrStalled (stepSucc (ctrl, cl)).2 = true
  simp [convergedOrStalled, hcur, hflag, hfs]

set_option maxHeartbeats 1000000 in
/-- C3: for every cluster record whose current/desired pair is reachable,
repeatedly applying `transition` while every side-effecting action
succeeds reaches, within six steps, a record whose current state equals
the desired state or a `...Failed` state with the stall flag set — no
non-stalling infinite cycle exists. -/
theorem transition_converges (ctrl : ControllerState) (cl : Cluster)
    (h : ReachablePair cl.status.currentState cl.spec.desiredState) :
    ∃ n, n ≤ 6 ∧ convergedOrStalled (iterSucc n (ctrl, cl)).2 = true := by
  have hmem := reachable_mem _ _ h
  simp only [reachableList, List.mem_cons, List.not_mem_nil, or_false,
    Prod.mk.injEq] at hmem
  rcases hmem with ⟨hc, hd⟩ | ⟨hc, hd⟩ | ⟨hc, hd⟩ | ⟨hc, hd⟩ | ⟨hc, hd⟩ | ⟨hc, hd⟩ | ⟨hc, hd⟩ | ⟨hc, hd⟩ | ⟨hc, hd⟩ | ⟨hc, hd⟩ | ⟨hc, hd⟩ | ⟨hc, hd⟩ | ⟨hc, hd⟩ | ⟨hc, hd⟩ | ⟨hc, hd⟩ | ⟨hc, hd⟩ | ⟨hc, hd⟩ | ⟨hc, hd⟩ | ⟨hc, hd⟩ | ⟨hc, hd⟩ | ⟨hc, hd⟩ | ⟨hc, hd⟩ | ⟨hc, hd⟩ <;>
    first
      | exact converged_destroyFailed_case ctrl cl hc hd
      | exact converged_of_iter ctrl cl 6 (by norm_num) _ _ hc hd (by decide) (by decide)

/-- Witness for C3 at a concrete fresh record desiring installation. -/
theorem transition_converges_witness :
    ∃ n, n ≤ 6 ∧ convergedOrStalled (iterSucc n (ctrlFixture, clusterFresh)).2 = true :=
  transition_converges ctrlFixture clusterFresh ReachablePair.initInstalled
